import Mathlib

/-!
Shallow embedding of the asset daemon cursor core
(`dagster/_core/definitions/asset_daemon_cursor.py`): the per-asset cursor
(`AssetDaemonAssetCursor`), the global cursor (`AssetDaemonCursor`) with its
update, serialization and deserialization logic, and the collaborator types it
consumes. Python integers are modelled as `Int`, optional values as `Option`,
JSON values as an inductive `JVal`, fallible operations (`check.invariant`,
decoding) as `Except String`. Python dicts and sets are modelled as
association lists / lists preserving insertion order; JSON object keys are
unique after `json.loads`, so wire maps are decoded positionally.
-/

deriving instance DecidableEq for Except

/-- Modelled from the spec: `AssetKey` (from `dagster._core.definitions.events`,
not in the source tree) is an opaque, hashable key whose string round trip
(`to_user_string` / `from_user_string`) is exact and stable. -/
abbrev AssetKey : Type := String

def AssetKey.to_user_string (k : AssetKey) : String := k

def AssetKey.from_user_string (s : String) : AssetKey := s

/-- Modelled from the spec: a time window of a time-windowed partitions
subset, carrying its start boundary (the source only reads `.start`). -/
structure TimeWindow where
  start : Int
  end_ : Int
deriving DecidableEq

/-- Modelled from the spec: `PartitionsSubset` (from `definitions.partition`,
not in the source tree) is an opaque, scheme-specific set of partition
identifiers supporting serialization to an asset-specific encoding; the
time-windowed variant exposes its included time windows. -/
structure PartitionsSubset where
  partition_keys : List String
  is_time_windowed : Bool
  included_time_windows : List TimeWindow
  serialized_form : String
deriving DecidableEq

def PartitionsSubset.serialize (s : PartitionsSubset) : String := s.serialized_form

/-- Modelled from the spec: `PartitionsDefinition` is consumed as an opaque
lookup exposing `deserialize_subset` (which may fail), `empty_subset`, and,
for the time-windowed variant, a `start` boundary (`time_window_start = some s`
encodes `isinstance(pd, TimeWindowPartitionsDefinition)` with start `s`). -/
structure PartitionsDefinition where
  deserialize_subset : String → Except String PartitionsSubset
  empty_subset : PartitionsSubset
  time_window_start : Option Int

/-- Modelled from the spec: the asset dependency graph is consumed as three
opaque lookups: root membership, materializable membership, and the partitions
definition of an asset. -/
structure AssetGraph where
  root_asset_keys : List AssetKey
  materializable_asset_keys : List AssetKey
  get_partitions_def : AssetKey → Option PartitionsDefinition

/-- Modelled from the spec: `AutoMaterializeAssetEvaluation` is an opaque
record carrying an asset key and an `is_empty` predicate; its remaining
content is opaque payload. -/
structure AutoMaterializeAssetEvaluation where
  asset_key : AssetKey
  is_empty : Bool
  payload : String
deriving DecidableEq

/-- Modelled from the spec: the generic serialization layer
(`dagster._serdes.serdes`, not in the source tree) consumed for evaluation
records: `serialize_value` and the fallible `deserialize_value`. -/
structure Serdes where
  serialize_value : AutoMaterializeAssetEvaluation → String
  deserialize_value : String → Except String AutoMaterializeAssetEvaluation

/-- Modelled from the spec: `AssetSubset` is a tagged union over an asset key
plus either a boolean flag (unpartitioned) or a `PartitionsSubset`
(partitioned). -/
inductive AssetSubsetValue where
  | boolVal : Bool → AssetSubsetValue
  | subsetVal : PartitionsSubset → AssetSubsetValue
deriving DecidableEq

structure AssetSubset where
  asset_key : AssetKey
  value : AssetSubsetValue
deriving DecidableEq

def AssetSubset.is_partitioned (s : AssetSubset) : Bool :=
  match s.value with
  | .boolVal _ => false
  | .subsetVal _ => true

def AssetSubset.bool_value (s : AssetSubset) : Bool :=
  match s.value with
  | .boolVal b => b
  | .subsetVal _ => false

def AssetSubset.subset_value (s : AssetSubset) : PartitionsSubset :=
  match s.value with
  | .boolVal _ =>
    { partition_keys := [], is_time_windowed := false,
      included_time_windows := [], serialized_form := "" }
  | .subsetVal ps => ps

/-- An (asset key, optional partition key) pair (`AssetKeyPartitionKey`). -/
abbrev AssetKeyPartitionKey : Type := AssetKey × Option String

/-- Modelled from the spec: the asset partitions covered by an `AssetSubset`
(`asset_subset.py` is not in the source tree). -/
def AssetSubset.asset_partitions (s : AssetSubset) : List AssetKeyPartitionKey :=
  match s.value with
  | .boolVal b => if b then [(s.asset_key, none)] else []
  | .subsetVal ps => ps.partition_keys.map (fun p => (s.asset_key, some p))

/-- Modelled from the spec: `AssetSubset.from_asset_partitions_set` derives an
`AssetSubset` from a raw set of (asset, partition) pairs, boolean for
unpartitioned assets and partition-keyed for partitioned ones. -/
def AssetSubset.from_asset_partitions_set (key : AssetKey)
    (partitions_def : Option PartitionsDefinition)
    (parts : List AssetKeyPartitionKey) : AssetSubset :=
  match partitions_def with
  | none => { asset_key := key, value := .boolVal (parts.any (fun p => p.1 == key)) }
  | some _ =>
    { asset_key := key,
      value := .subsetVal
        { partition_keys := (parts.filterMap
            (fun p => if p.1 == key then p.2 else none)).dedup,
          is_time_windowed := false, included_time_windows := [],
          serialized_form := "" } }

/-- Modelled from the spec: type-homogeneous union of two `AssetSubset`s for
the same asset (boolean or, respectively partition-set union). -/
def AssetSubset.union (a b : AssetSubset) : AssetSubset :=
  match a.value, b.value with
  | .boolVal x, .boolVal y => { asset_key := a.asset_key, value := .boolVal (x || y) }
  | .subsetVal x, .subsetVal y =>
    { asset_key := a.asset_key,
      value := .subsetVal
        { partition_keys := (x.partition_keys ++ y.partition_keys).dedup,
          is_time_windowed := x.is_time_windowed || y.is_time_windowed,
          included_time_windows := x.included_time_windows ++ y.included_time_windows,
          serialized_form := x.serialized_form } }
  | _, _ => a

/-- Python truthiness of an optional integer: `None` and `0` are falsy. -/
def pyTruthy : Option Int → Bool
  | none => false
  | some n => n != 0

/-- Python `a or b` on optional integers: `a` when truthy, else `b`. -/
def pyOr (a b : Option Int) : Option Int :=
  if pyTruthy a then a else b

/-- Embedding of `check.invariant`: error when the condition is false. -/
def checkInvariant (cond : Bool) (msg : String) : Except String Unit :=
  if cond then .ok () else .error msg

/-- Python dict assignment `m[k] = v`: replace in place when present,
append when absent. -/
def setKey {α : Type} (m : List (AssetKey × α)) (k : AssetKey) (v : α) :
    List (AssetKey × α) :=
  if m.any (fun p => p.1 == k) then
    m.map (fun p => if p.1 == k then (k, v) else p)
  else m ++ [(k, v)]

/-- Python dict comprehension over a list: insert each element in order,
later duplicates overwriting earlier ones. -/
def dictComp {β α : Type} (l : List β) (keyFn : β → AssetKey) (valFn : β → α) :
    List (AssetKey × α) :=
  l.foldl (fun m x => setKey m (keyFn x) (valFn x)) []

/-- Convenience class to represent the state of an individual asset being
handled by the daemon (`AssetDaemonAssetCursor`, lines 29-62). -/
structure AssetDaemonAssetCursor where
  asset_key : AssetKey
  latest_storage_id : Option Int
  latest_evaluation_timestamp : Option Int
  latest_evaluation : Option AutoMaterializeAssetEvaluation
  materialized_requested_or_discarded_subset : AssetSubset
deriving DecidableEq

/-- `AssetDaemonAssetCursor.with_updates` (lines 40-62): no-op for non-root
assets, else unions the tick's materialized/requested/discarded partitions
into the handled subset. -/
def AssetDaemonAssetCursor.with_updates (self : AssetDaemonAssetCursor)
    (asset_graph : AssetGraph)
    (newly_materialized_subset : AssetSubset)
    (requested_asset_partitions : List AssetKeyPartitionKey)
    (discarded_asset_partitions : List AssetKeyPartitionKey) :
    AssetDaemonAssetCursor :=
  if self.asset_key ∉ asset_graph.root_asset_keys then self
  else
    let newly_mrd_asset_partitions :=
      newly_materialized_subset.asset_partitions ++ requested_asset_partitions
        ++ discarded_asset_partitions
    let newly_mrd_subset :=
      AssetSubset.from_asset_partitions_set self.asset_key
        (asset_graph.get_partitions_def self.asset_key) newly_mrd_asset_partitions
    let unioned :=
      AssetSubset.union self.materialized_requested_or_discarded_subset
        newly_mrd_subset
    { self with materialized_requested_or_discarded_subset := unioned }

/-- State saved between reconciliation evaluations (`AssetDaemonCursor`,
lines 65-300). Sets and dicts are modelled as insertion-ordered lists. -/
structure AssetDaemonCursor where
  latest_storage_id : Option Int
  handled_root_asset_keys : List AssetKey
  handled_root_partitions_by_asset_key : List (AssetKey × PartitionsSubset)
  evaluation_id : Int
  last_observe_request_timestamp_by_asset_key : List (AssetKey × Int)
  latest_evaluation_by_asset_key : List (AssetKey × AutoMaterializeAssetEvaluation)
  latest_evaluation_timestamp : Option Int
deriving DecidableEq

/-- The truthiness-guarded storage-id monotonicity check of
`AssetDaemonCursor.with_updates` (lines 134-138): Python
`if latest_storage_id and self.latest_storage_id` skips the check when either
side is `None` or `0`. -/
def storageIdCheck (newId priorId : Option Int) : Except String Unit :=
  if pyTruthy newId && pyTruthy priorId then
    checkInvariant (decide (priorId.getD 0 ≤ newId.getD 0))
      "Latest storage ID should be >= previous latest storage ID"
  else .ok ()

/-- `AssetDaemonCursor.with_updates` (lines 113-164). -/
def AssetDaemonCursor.with_updates (self : AssetDaemonCursor)
    (latest_storage_id : Option Int) (evaluation_id : Int)
    (newly_observe_requested_asset_keys : List AssetKey)
    (observe_request_timestamp : Int)
    (evaluations : List AutoMaterializeAssetEvaluation)
    (evaluation_time : Int)
    (asset_cursors : List AssetDaemonAssetCursor) :
    Except String AssetDaemonCursor :=
  let result_last_observe_request_timestamp_by_asset_key :=
    newly_observe_requested_asset_keys.foldl
      (fun m k => setKey m k observe_request_timestamp)
      self.last_observe_request_timestamp_by_asset_key
  match storageIdCheck latest_storage_id self.latest_storage_id with
  | .error e => .error e
  | .ok _ =>
    let latest_evaluation_by_asset_key :=
      dictComp (evaluations.filter (fun e => !e.is_empty))
        (fun e => e.asset_key) (fun e => e)
    let result_handled_root_asset_keys :=
      (asset_cursors.filter (fun c =>
        !c.materialized_requested_or_discarded_subset.is_partitioned &&
          c.materialized_requested_or_discarded_subset.bool_value)).map
        (fun c => c.asset_key)
    let result_handled_root_partitions_by_asset_key :=
      dictComp (asset_cursors.filter (fun c =>
          c.materialized_requested_or_discarded_subset.is_partitioned))
        (fun c => c.asset_key)
        (fun c => c.materialized_requested_or_discarded_subset.subset_value)
    .ok {
      latest_storage_id := pyOr latest_storage_id self.latest_storage_id
      handled_root_asset_keys := result_handled_root_asset_keys
      handled_root_partitions_by_asset_key := result_handled_root_partitions_by_asset_key
      evaluation_id := evaluation_id
      last_observe_request_timestamp_by_asset_key :=
        result_last_observe_request_timestamp_by_asset_key
      latest_evaluation_by_asset_key := latest_evaluation_by_asset_key
      latest_evaluation_timestamp := some evaluation_time
    }

/-- `AssetDaemonCursor.empty` (lines 166-176). -/
def AssetDaemonCursor.empty : AssetDaemonCursor :=
  { latest_storage_id := none
    handled_root_partitions_by_asset_key := []
    handled_root_asset_keys := []
    evaluation_id := 0
    last_observe_request_timestamp_by_asset_key := []
    latest_evaluation_by_asset_key := []
    latest_evaluation_timestamp := none }

/-- A parsed JSON value (the output of `json.loads` / input of `json.dumps`,
which form an external inverse pair at the string boundary). -/
inductive JVal where
  | jnull : JVal
  | jint : Int → JVal
  | jstr : String → JVal
  | jlist : List JVal → JVal
  | jobj : List (String × JVal) → JVal

/-- Decode a JSON value as an optional integer (`null` or a number). -/
def decodeOptInt : JVal → Except String (Option Int)
  | .jnull => .ok none
  | .jint n => .ok (some n)
  | _ => .error "expected integer or null"

/-- Decode a JSON value as an integer. -/
def decodeInt : JVal → Except String Int
  | .jint n => .ok n
  | _ => .error "expected integer"

/-- Decode a list of JSON values as strings. -/
def decodeStringItems : List JVal → Except String (List String)
  | [] => .ok []
  | .jstr s :: rest =>
    match decodeStringItems rest with
    | .error e => .error e
    | .ok tail => .ok (s :: tail)
  | _ :: _ => .error "expected string"

/-- Decode a JSON value as a list of strings. -/
def decodeStringList : JVal → Except String (List String)
  | .jlist xs => decodeStringItems xs
  | _ => .error "expected list"

/-- Decode JSON object entries whose values are strings. -/
def decodeStrMapItems : List (String × JVal) → Except String (List (String × String))
  | [] => .ok []
  | (k, .jstr s) :: rest =>
    match decodeStrMapItems rest with
    | .error e => .error e
    | .ok tail => .ok ((k, s) :: tail)
  | _ :: _ => .error "expected string value"

/-- Decode a JSON value as a string-to-string object. -/
def decodeStrMap : JVal → Except String (List (String × String))
  | .jobj fields => decodeStrMapItems fields
  | _ => .error "expected object"

/-- Decode JSON object entries whose values are numbers. -/
def decodeIntMapItems : List (String × JVal) → Except String (List (String × Int))
  | [] => .ok []
  | (k, .jint n) :: rest =>
    match decodeIntMapItems rest with
    | .error e => .error e
    | .ok tail => .ok ((k, n) :: tail)
  | _ :: _ => .error "expected number value"

/-- Decode a JSON value as a string-to-number object. -/
def decodeIntMap : JVal → Except String (List (String × Int))
  | .jobj fields => decodeIntMapItems fields
  | _ => .error "expected object"

/-- Python `data[k]` lookup returning the first binding, if any. -/
def lookupField (fields : List (String × JVal)) (k : String) : Option JVal :=
  match fields.find? (fun p => p.1 == k) with
  | some p => some p.2
  | none => none

/-- Python `data[k]`: `KeyError` when the field is absent. -/
def requireField (fields : List (String × JVal)) (k : String) : Except String JVal :=
  match lookupField fields k with
  | some v => .ok v
  | none => .error "KeyError"

/-- Python `data.get(k, default)` for an optional string-to-number field. -/
def optionalIntMapField (fields : List (String × JVal)) (k : String) :
    Except String (List (String × Int)) :=
  match lookupField fields k with
  | none => .ok []
  | some v => decodeIntMap v

/-- Python `data.get(k, default)` for an optional string-to-string field. -/
def optionalStrMapField (fields : List (String × JVal)) (k : String) :
    Except String (List (String × String)) :=
  match lookupField fields k with
  | none => .ok []
  | some v => decodeStrMap v

/-- Python `data.get(k, 0)` for the optional evaluation timestamp field. -/
def optionalTimestampField (fields : List (String × JVal)) (k : String) :
    Except String (Option Int) :=
  match lookupField fields k with
  | none => .ok (some 0)
  | some v => decodeOptInt v

/-- The raw pieces extracted from either wire format by `from_serialized`
(lines 182-207), before graph-aware reconstruction. -/
structure RawCursorData where
  latest_storage_id : Option Int
  serialized_handled_root_asset_keys : List String
  serialized_handled_root_partitions_by_asset_key : List (String × String)
  evaluation_id : Int
  serialized_last_observe_request_timestamp_by_asset_key : List (String × Int)
  serialized_latest_evaluation_by_asset_key : List (String × String)
  latest_evaluation_timestamp : Option Int
deriving DecidableEq

/-- The legacy-list branch of `from_serialized` (lines 182-193): the length
must be 3 or 4, a missing evaluation id defaults to 0, observe timestamps and
evaluations default to empty, and the legacy evaluation timestamp is 0. -/
def decodeLegacyWire (xs : List JVal) : Except String RawCursorData :=
  match checkInvariant (xs.length == 3 || xs.length == 4) "Invalid serialized cursor" with
  | .error e => .error e
  | .ok _ =>
    match xs with
    | a :: b :: c :: rest =>
      match decodeOptInt a with
      | .error e => .error e
      | .ok latest_storage_id =>
        match decodeStringList b with
        | .error e => .error e
        | .ok serialized_handled_root_asset_keys =>
          match decodeStrMap c with
          | .error e => .error e
          | .ok serialized_handled_root_partitions_by_asset_key =>
            match (match rest with
                   | [d] => decodeInt d
                   | _ => .ok (0 : Int)) with
            | .error e => .error e
            | .ok evaluation_id =>
              .ok { latest_storage_id := latest_storage_id
                    serialized_handled_root_asset_keys :=
                      serialized_handled_root_asset_keys
                    serialized_handled_root_partitions_by_asset_key :=
                      serialized_handled_root_partitions_by_asset_key
                    evaluation_id := evaluation_id
                    serialized_last_observe_request_timestamp_by_asset_key := []
                    serialized_latest_evaluation_by_asset_key := []
                    latest_evaluation_timestamp := some 0 }
    | _ => .error "Invalid serialized cursor"

/-- The map-format branch of `from_serialized` (lines 194-207): four required
fields and three optional ones with empty or zero defaults. -/
def decodeObjWire (fields : List (String × JVal)) : Except String RawCursorData :=
  match requireField fields "latest_storage_id" with
    | .error e => .error e
    | .ok v1 =>
      match decodeOptInt v1 with
      | .error e => .error e
      | .ok latest_storage_id =>
        match requireField fields "handled_root_asset_keys" with
        | .error e => .error e
        | .ok v2 =>
          match decodeStringList v2 with
          | .error e => .error e
          | .ok serialized_handled_root_asset_keys =>
            match requireField fields "handled_root_partitions_by_asset_key" with
            | .error e => .error e
            | .ok v3 =>
              match decodeStrMap v3 with
              | .error e => .error e
              | .ok serialized_handled_root_partitions_by_asset_key =>
                match requireField fields "evaluation_id" with
                | .error e => .error e
                | .ok v4 =>
                  match decodeInt v4 with
                  | .error e => .error e
                  | .ok evaluation_id =>
                    match optionalIntMapField fields "last_observe_request_timestamp_by_asset_key" with
                    | .error e => .error e
                    | .ok serialized_last_observe_request_timestamp_by_asset_key =>
                      match optionalStrMapField fields "latest_evaluation_by_asset_key" with
                      | .error e => .error e
                      | .ok serialized_latest_evaluation_by_asset_key =>
                        match optionalTimestampField fields "latest_evaluation_timestamp" with
                        | .error e => .error e
                        | .ok latest_evaluation_timestamp =>
                          .ok { latest_storage_id := latest_storage_id
                                serialized_handled_root_asset_keys :=
                                  serialized_handled_root_asset_keys
                                serialized_handled_root_partitions_by_asset_key :=
                                  serialized_handled_root_partitions_by_asset_key
                                evaluation_id := evaluation_id
                                serialized_last_observe_request_timestamp_by_asset_key :=
                                  serialized_last_observe_request_timestamp_by_asset_key
                                serialized_latest_evaluation_by_asset_key :=
                                  serialized_latest_evaluation_by_asset_key
                                latest_evaluation_timestamp :=
                                  latest_evaluation_timestamp }

/-- Wire-shape detection of `from_serialized` (line 182): a JSON list is the
legacy format, a JSON object is the current map format, anything else is a
fatal type error. -/
def decodeCursorWire (data : JVal) : Except String RawCursorData :=
  match data with
  | .jlist xs => decodeLegacyWire xs
  | .jobj fields => decodeObjWire fields
  | _ => .error "expected list or object"

/-- The time-window forward-compatibility special case of `from_serialized`
(lines 229-237): the decoded subset is time-windowed, the current partitions
definition is time-windowed, and some included window starts before the
definition's start boundary. -/
def timeWindowSpecialCase (partitions_def : PartitionsDefinition)
    (subset : PartitionsSubset) : Bool :=
  subset.is_time_windowed &&
    (match partitions_def.time_window_start with
     | some startBoundary =>
       subset.included_time_windows.any (fun w => decide (w.start < startBoundary))
     | none => false)

/-- The guarded subset decode of `from_serialized` (lines 222-239): decode the
serialized subset under the current partitions definition, substituting the
empty subset on any failure or when the time-window special case applies. -/
def decodeHandledSubset (partitions_def : PartitionsDefinition)
    (serialized_subset : String) : PartitionsSubset :=
  match partitions_def.deserialize_subset serialized_subset with
  | .error _ => partitions_def.empty_subset
  | .ok subset =>
    if timeWindowSpecialCase partitions_def subset then partitions_def.empty_subset
    else subset

/-- The evaluation-decoding loop of `from_serialized` (lines 242-248):
failures of the generic serdes layer propagate. -/
def decodeEvaluationItems (serdes : Serdes) :
    List (String × String) →
      Except String (List (AssetKey × AutoMaterializeAssetEvaluation))
  | [] => .ok []
  | (key_str, serialized_evaluation) :: rest =>
    match serdes.deserialize_value serialized_evaluation with
    | .error e => .error e
    | .ok evaluation =>
      match decodeEvaluationItems serdes rest with
      | .error e => .error e
      | .ok tail => .ok ((AssetKey.from_user_string key_str, evaluation) :: tail)

/-- One iteration of the handled-partitions loop of `from_serialized`
(lines 209-240): drop keys that are not materializable or have no partitions
definition, else decode the subset with the guarded fallback. -/
def handledEntryStep (asset_graph : AssetGraph) (p : String × String) :
    Option (AssetKey × PartitionsSubset) :=
  let key := AssetKey.from_user_string p.1
  if key ∈ asset_graph.materializable_asset_keys then
    match asset_graph.get_partitions_def key with
    | none => none
    | some partitions_def => some (key, decodeHandledSubset partitions_def p.2)
  else none

/-- `AssetDaemonCursor.from_serialized` (lines 178-263): decode the wire
shape, then rebuild the handled-partitions map against the current asset
graph (dropping unknown or unpartitioned keys and substituting empty subsets
for undecodable ones) and decode the stored evaluations. -/
def AssetDaemonCursor.from_serialized (serdes : Serdes) (data : JVal)
    (asset_graph : AssetGraph) : Except String AssetDaemonCursor :=
  match decodeCursorWire data with
  | .error e => .error e
  | .ok raw =>
    let handled_root_partitions_by_asset_key :=
      raw.serialized_handled_root_partitions_by_asset_key.filterMap
        (handledEntryStep asset_graph)
    match decodeEvaluationItems serdes raw.serialized_latest_evaluation_by_asset_key with
    | .error e => .error e
    | .ok latest_evaluation_by_asset_key =>
      .ok {
        latest_storage_id := raw.latest_storage_id
        handled_root_asset_keys :=
          raw.serialized_handled_root_asset_keys.map AssetKey.from_user_string
        handled_root_partitions_by_asset_key := handled_root_partitions_by_asset_key
        evaluation_id := raw.evaluation_id
        last_observe_request_timestamp_by_asset_key :=
          raw.serialized_last_observe_request_timestamp_by_asset_key.map
            (fun p => (AssetKey.from_user_string p.1, p.2))
        latest_evaluation_by_asset_key := latest_evaluation_by_asset_key
        latest_evaluation_timestamp := raw.latest_evaluation_timestamp
      }

/-- `AssetDaemonCursor.get_evaluation_id_from_serialized` (lines 265-272):
a cheap peek at the evaluation id supporting both wire formats; a 3-element
legacy list yields `None`. -/
def AssetDaemonCursor.get_evaluation_id_from_serialized (data : JVal) :
    Except String (Option Int) :=
  match data with
  | .jlist xs =>
    match checkInvariant (xs.length == 3 || xs.length == 4) "Invalid serialized cursor" with
    | .error e => .error e
    | .ok _ =>
      match xs with
      | [_, _, _, d] =>
        match decodeInt d with
        | .error e => .error e
        | .ok n => .ok (some n)
      | _ => .ok none
  | .jobj fields =>
    match requireField fields "evaluation_id" with
    | .error e => .error e
    | .ok v =>
      match decodeInt v with
      | .error e => .error e
      | .ok n => .ok (some n)
  | _ => .error "expected list or object"

/-- Encoding of an optional integer as a JSON value. -/
def jOptInt : Option Int → JVal
  | none => .jnull
  | some n => .jint n

/-- `AssetDaemonCursor.serialize` (lines 274-300): the canonical map-format
encoding with fixed field names (the surrounding `json.dumps` is the external
string boundary). -/
def AssetDaemonCursor.serialize (serdes : Serdes) (self : AssetDaemonCursor) : JVal :=
  .jobj [
    ("latest_storage_id", jOptInt self.latest_storage_id),
    ("handled_root_asset_keys",
      .jlist (self.handled_root_asset_keys.map
        (fun key => .jstr (AssetKey.to_user_string key)))),
    ("handled_root_partitions_by_asset_key",
      .jobj (self.handled_root_partitions_by_asset_key.map
        (fun p => (AssetKey.to_user_string p.1, JVal.jstr (PartitionsSubset.serialize p.2))))),
    ("evaluation_id", .jint self.evaluation_id),
    ("last_observe_request_timestamp_by_asset_key",
      .jobj (self.last_observe_request_timestamp_by_asset_key.map
        (fun p => (AssetKey.to_user_string p.1, JVal.jint p.2)))),
    ("latest_evaluation_by_asset_key",
      .jobj (self.latest_evaluation_by_asset_key.map
        (fun p => (AssetKey.to_user_string p.1, JVal.jstr (serdes.serialize_value p.2))))),
    ("latest_evaluation_timestamp", jOptInt self.latest_evaluation_timestamp)
  ]

/-- A degenerate serdes layer used for concrete instantiations that carry no
stored evaluations. -/
def trivialSerdes : Serdes :=
  { serialize_value := fun e => e.payload
    deserialize_value := fun _ => .error "no deserializer" }

/-- An asset graph with no assets, used for concrete instantiations. -/
def trivialGraph : AssetGraph :=
  { root_asset_keys := [], materializable_asset_keys := [],
    get_partitions_def := fun _ => none }

/-- The spec's legacy 3-element example `[100, ["a"], \x7b\x7d]`. -/
def legacy3Example : JVal :=
  .jlist [.jint 100, .jlist [.jstr "a"], .jobj []]

/-- The spec's legacy 4-element example `[100, ["a"], \x7b\x7d, 7]`. -/
def legacy4Example : JVal :=
  .jlist [.jint 100, .jlist [.jstr "a"], .jobj [], .jint 7]

/-- A cursor whose prior `latest_storage_id` is 5. -/
def cursor5 : AssetDaemonCursor :=
  { AssetDaemonCursor.empty with latest_storage_id := some 5 }

/-- An empty partitions subset used by concrete partitions definitions. -/
def emptyPS : PartitionsSubset :=
  { partition_keys := [], is_time_windowed := false,
    included_time_windows := [], serialized_form := "" }

/-- A concrete non-time-windowed partitions subset serializing to `S`. -/
def psEx : PartitionsSubset :=
  { partition_keys := ["p1"], is_time_windowed := false,
    included_time_windows := [], serialized_form := "S" }

/-- A time-windowed subset with a window starting at 5, serializing to `TW`. -/
def twSubset : PartitionsSubset :=
  { partition_keys := [], is_time_windowed := true,
    included_time_windows := [{ start := 5, end_ := 6 }], serialized_form := "TW" }

/-- A time-windowed partitions definition whose start boundary is 10 and which
decodes `TW` back to `twSubset`. -/
def twPd : PartitionsDefinition :=
  { deserialize_subset := fun s => if s == "TW" then .ok twSubset else .error "bad subset"
    empty_subset := emptyPS
    time_window_start := some 10 }

/-- A graph whose only materializable asset `a` carries `twPd`. -/
def twGraph : AssetGraph :=
  { root_asset_keys := [], materializable_asset_keys := ["a"],
    get_partitions_def := fun _ => some twPd }

/-- A cursor whose handled partitions map `a` to the decodable `twSubset`. -/
def twCursor : AssetDaemonCursor :=
  { AssetDaemonCursor.empty with
      handled_root_partitions_by_asset_key := [("a", twSubset)] }

/-- A non-time-windowed partitions definition that decodes `S` to `psEx`. -/
def pdGood : PartitionsDefinition :=
  { deserialize_subset := fun s => if s == "S" then .ok psEx else .error "bad subset"
    empty_subset := emptyPS
    time_window_start := none }

/-- A graph whose only materializable asset `a` carries `pdGood`. -/
def goodGraph : AssetGraph :=
  { root_asset_keys := [], materializable_asset_keys := ["a"],
    get_partitions_def := fun _ => some pdGood }

/-- Two per-asset cursors sharing asset key `k` with opposite partitioning
status: an unpartitioned handled flag and a partitioned subset. -/
def dupCursors : List AssetDaemonAssetCursor :=
  [ { asset_key := "k", latest_storage_id := none, latest_evaluation_timestamp := none,
      latest_evaluation := none,
      materialized_requested_or_discarded_subset :=
        { asset_key := "k", value := .boolVal true } },
    { asset_key := "k", latest_storage_id := none, latest_evaluation_timestamp := none,
      latest_evaluation := none,
      materialized_requested_or_discarded_subset :=
        { asset_key := "k", value := .subsetVal psEx } } ]

/-- Whether a wire value is a legacy 3-element list (the shape on which the
evaluation-id peek and full deserialization disagree). -/
def isLegacy3 : JVal → Bool
  | .jlist xs => xs.length == 3
  | _ => false

/-- A cursor with representative non-empty fields whose handled subset
round-trips under `goodGraph`. -/
def goodCursor : AssetDaemonCursor :=
  { latest_storage_id := some 3
    handled_root_asset_keys := ["b"]
    handled_root_partitions_by_asset_key := [("a", psEx)]
    evaluation_id := 2
    last_observe_request_timestamp_by_asset_key := [("c", 50)]
    latest_evaluation_by_asset_key := []
    latest_evaluation_timestamp := some 9 }

/-- A non-empty and an empty evaluation for the same tick. -/
def evalA : AutoMaterializeAssetEvaluation :=
  { asset_key := "a", is_empty := false, payload := "ea" }

def evalB : AutoMaterializeAssetEvaluation :=
  { asset_key := "b", is_empty := true, payload := "eb" }

/-- An unpartitioned fully-handled per-asset cursor for asset `a`. -/
def acA : AssetDaemonAssetCursor :=
  { asset_key := "a", latest_storage_id := none, latest_evaluation_timestamp := none,
    latest_evaluation := none,
    materialized_requested_or_discarded_subset :=
      { asset_key := "a", value := .boolVal true } }

/-- A partitioned per-asset cursor for asset `b`. -/
def acB : AssetDaemonAssetCursor :=
  { asset_key := "b", latest_storage_id := none, latest_evaluation_timestamp := none,
    latest_evaluation := none,
    materialized_requested_or_discarded_subset :=
      { asset_key := "b", value := .subsetVal psEx } }

/-- A graph whose only root asset is `r`. -/
def rootedGraph : AssetGraph :=
  { root_asset_keys := ["r"], materializable_asset_keys := [],
    get_partitions_def := fun _ => none }

/-- A per-asset cursor for the non-root asset `x`. -/
def acX : AssetDaemonAssetCursor :=
  { asset_key := "x", latest_storage_id := some 4, latest_evaluation_timestamp := some 2,
    latest_evaluation := none,
    materialized_requested_or_discarded_subset :=
      { asset_key := "x", value := .boolVal false } }

/-- A cursor whose prior `latest_storage_id` is 9. -/
def cursor9 : AssetDaemonCursor :=
  { AssetDaemonCursor.empty with latest_storage_id := some 9 }

/-- The cursor produced by updating the empty cursor with evaluations
`[evalA, evalB]` at evaluation id 1. -/
def c9res : AssetDaemonCursor :=
  { latest_storage_id := none, handled_root_asset_keys := [],
    handled_root_partitions_by_asset_key := [], evaluation_id := 1,
    last_observe_request_timestamp_by_asset_key := [],
    latest_evaluation_by_asset_key := [("a", evalA)],
    latest_evaluation_timestamp := some 0 }

/-- The cursor produced by updating the empty cursor with asset cursors
`[acA, acB]` at evaluation id 1. -/
def c38res : AssetDaemonCursor :=
  { latest_storage_id := none, handled_root_asset_keys := ["a"],
    handled_root_partitions_by_asset_key := [("b", psEx)], evaluation_id := 1,
    last_observe_request_timestamp_by_asset_key := [],
    latest_evaluation_by_asset_key := [], latest_evaluation_timestamp := some 0 }

/-- The cursor produced by updating the empty cursor with duplicate-keyed
asset cursors `dupCursors`. -/
def c8res : AssetDaemonCursor :=
  { latest_storage_id := none, handled_root_asset_keys := ["k"],
    handled_root_partitions_by_asset_key := [("k", psEx)], evaluation_id := 0,
    last_observe_request_timestamp_by_asset_key := [],
    latest_evaluation_by_asset_key := [], latest_evaluation_timestamp := some 0 }

/-- A map-format wire value with the four required fields and the three
optional fields absent. -/
def mkMapWire (latest_storage_id : Option Int)
    (handled_root_asset_keys : List String)
    (handled_root_partitions : List (String × String))
    (evaluation_id : Int) : JVal :=
  .jobj [
    ("latest_storage_id", jOptInt latest_storage_id),
    ("handled_root_asset_keys", .jlist (handled_root_asset_keys.map JVal.jstr)),
    ("handled_root_partitions_by_asset_key",
      .jobj (handled_root_partitions.map (fun p => (p.1, JVal.jstr p.2)))),
    ("evaluation_id", .jint evaluation_id)
  ]

/-- The cursor obtained by deserializing
`mkMapWire (some 1) [] [("a", "BAD")] 0` under `goodGraph`: the undecodable
subset string `BAD` is replaced by the empty subset. -/
def cW : AssetDaemonCursor :=
  { latest_storage_id := some 1, handled_root_asset_keys := [],
    handled_root_partitions_by_asset_key := [("a", emptyPS)], evaluation_id := 0,
    last_observe_request_timestamp_by_asset_key := [],
    latest_evaluation_by_asset_key := [], latest_evaluation_timestamp := some 0 }

theorem mem_setKey_val {α : Type} {m : List (AssetKey × α)} {k0 : AssetKey} {v0 : α}
    {k : AssetKey} {v : α} (h : (k, v) ∈ setKey m k0 v0) :
    (k, v) ∈ m ∨ (k = k0 ∧ v = v0) := by
  unfold setKey at h
  split at h
  · rcases List.mem_map.mp h with ⟨p, hp, heq⟩
    by_cases hpk : p.1 == k0
    · simp [hpk] at heq
      right
      exact ⟨heq.1.symm, heq.2.symm⟩
    · simp [hpk] at heq
      left
      rw [heq] at hp
      exact hp
  · rcases List.mem_append.mp h with h1 | h1
    · exact Or.inl h1
    · right
      simp at h1
      exact ⟨h1.1, h1.2⟩

theorem mem_setKey_key {α : Type} {m : List (AssetKey × α)} {k0 : AssetKey} {v0 : α}
    {k : AssetKey} :
    (∃ v, (k, v) ∈ setKey m k0 v0) ↔ k = k0 ∨ ∃ v, (k, v) ∈ m := by
  constructor
  · rintro ⟨v, hv⟩
    rcases mem_setKey_val hv with h | h
    · exact Or.inr ⟨v, h⟩
    · exact Or.inl h.1
  · rintro (rfl | ⟨v, hv⟩)
    · unfold setKey
      split
      · rename_i hany
        rcases List.any_eq_true.mp hany with ⟨p, hp, hpk⟩
        refine ⟨v0, List.mem_map.mpr ⟨p, hp, ?_⟩⟩
        simp [hpk]
      · exact ⟨v0, List.mem_append.mpr (Or.inr (List.mem_singleton.mpr rfl))⟩
    · unfold setKey
      split
      · by_cases hkk : k = k0
        · rename_i hany
          rcases List.any_eq_true.mp hany with ⟨p, hp, hpk⟩
          refine ⟨v0, List.mem_map.mpr ⟨p, hp, ?_⟩⟩
          simp [hpk, hkk]
        · refine ⟨v, List.mem_map.mpr ⟨(k, v), hv, ?_⟩⟩
          simp [hkk]
      · exact ⟨v, List.mem_append.mpr (Or.inl hv)⟩

theorem foldl_setKey_val {β α : Type} (g : β → AssetKey) (f : β → α)
    (l : List β) (init : List (AssetKey × α)) {k : AssetKey} {v : α}
    (h : (k, v) ∈ l.foldl (fun m x => setKey m (g x) (f x)) init) :
    (k, v) ∈ init ∨ ∃ x ∈ l, g x = k ∧ f x = v := by
  induction l generalizing init with
  | nil => exact Or.inl h
  | cons x xs ih =>
    rcases ih (setKey init (g x) (f x)) h with h1 | ⟨y, hy, hgy, hfy⟩
    · rcases mem_setKey_val h1 with h2 | ⟨rfl, rfl⟩
      · exact Or.inl h2
      · exact Or.inr ⟨x, List.mem_cons_self x xs, rfl, rfl⟩
    · exact Or.inr ⟨y, List.mem_cons_of_mem x hy, hgy, hfy⟩

theorem foldl_setKey_key {β α : Type} (g : β → AssetKey) (f : β → α)
    (l : List β) (init : List (AssetKey × α)) {k : AssetKey} :
    (∃ v, (k, v) ∈ l.foldl (fun m x => setKey m (g x) (f x)) init) ↔
      (∃ v, (k, v) ∈ init) ∨ ∃ x ∈ l, g x = k := by
  induction l generalizing init with
  | nil => simp
  | cons x xs ih =>
    simp only [List.foldl_cons]
    rw [ih]
    rw [mem_setKey_key]
    constructor
    · rintro ((rfl | h) | ⟨y, hy, hgy⟩)
      · exact Or.inr ⟨x, List.mem_cons_self x xs, rfl⟩
      · exact Or.inl h
      · exact Or.inr ⟨y, List.mem_cons_of_mem x hy, hgy⟩
    · rintro (h | ⟨y, hy, hgy⟩)
      · exact Or.inl (Or.inr h)
      · rcases List.mem_cons.mp hy with rfl | hy2
        · exact Or.inl (Or.inl hgy.symm)
        · exact Or.inr ⟨y, hy2, hgy⟩

theorem dictComp_val {β α : Type} {g : β → AssetKey} {f : β → α}
    {l : List β} {k : AssetKey} {v : α} (h : (k, v) ∈ dictComp l g f) :
    ∃ x ∈ l, g x = k ∧ f x = v := by
  rcases foldl_setKey_val g f l [] h with h1 | h1
  · exact absurd h1 (List.not_mem_nil _)
  · exact h1

theorem dictComp_key {β α : Type} {g : β → AssetKey} {f : β → α}
    {l : List β} {k : AssetKey} :
    (∃ v, (k, v) ∈ dictComp l g f) ↔ ∃ x ∈ l, g x = k := by
  unfold dictComp
  rw [foldl_setKey_key]
  simp

theorem decodeOptInt_jOptInt (x : Option Int) : decodeOptInt (jOptInt x) = .ok x := by
  cases x <;> rfl

theorem decodeStringItems_map (l : List String) :
    decodeStringItems (l.map JVal.jstr) = .ok l := by
  induction l with
  | nil => rfl
  | cons x xs ih => simp [decodeStringItems, ih]

theorem decodeStrMapItems_map {β : Type} (f : β → String) (l : List (String × β)) :
    decodeStrMapItems (l.map (fun p => (p.1, JVal.jstr (f p.2)))) =
      .ok (l.map (fun p => (p.1, f p.2))) := by
  induction l with
  | nil => rfl
  | cons x xs ih => simp [decodeStrMapItems, ih]

theorem decodeIntMapItems_map (l : List (String × Int)) :
    decodeIntMapItems (l.map (fun p => (p.1, JVal.jint p.2))) = .ok l := by
  induction l with
  | nil => rfl
  | cons x xs ih => simp [decodeIntMapItems, ih]

theorem decodeEvaluationItems_roundtrip (serdes : Serdes)
    (l : List (AssetKey × AutoMaterializeAssetEvaluation))
    (h : ∀ p ∈ l, serdes.deserialize_value (serdes.serialize_value p.2) = .ok p.2) :
    decodeEvaluationItems serdes (l.map (fun p => (p.1, serdes.serialize_value p.2))) =
      .ok l := by
  induction l with
  | nil => rfl
  | cons x xs ih =>
    have hx := h x (List.mem_cons_self x xs)
    have hrest := ih (fun p hp => h p (List.mem_cons_of_mem x hp))
    simp [decodeEvaluationItems, hx, hrest, AssetKey.from_user_string]

theorem handledEntries_roundtrip (asset_graph : AssetGraph)
    (l : List (AssetKey × PartitionsSubset))
    (h : ∀ p ∈ l, p.1 ∈ asset_graph.materializable_asset_keys ∧
      ∃ pd, asset_graph.get_partitions_def p.1 = some pd ∧
        pd.deserialize_subset (PartitionsSubset.serialize p.2) = .ok p.2 ∧
        timeWindowSpecialCase pd p.2 = false) :
    (l.map (fun p => (p.1, PartitionsSubset.serialize p.2))).filterMap
      (handledEntryStep asset_graph) = l := by
  induction l with
  | nil => rfl
  | cons x xs ih =>
    rcases h x (List.mem_cons_self x xs) with ⟨hmat, pd, hpd, hdecode, hspecial⟩
    have hrest := ih (fun p hp => h p (List.mem_cons_of_mem x hp))
    simp only [List.map_cons, List.filterMap_cons]
    rw [show handledEntryStep asset_graph (x.1, PartitionsSubset.serialize x.2) =
        some x from ?_]
    · simp [hrest]
    · unfold handledEntryStep decodeHandledSubset
      simp only [AssetKey.from_user_string]
      rw [if_pos hmat, hpd]
      simp [hdecode, hspecial]

theorem decodeCursorWire_serialize (serdes : Serdes) (c : AssetDaemonCursor) :
    decodeCursorWire (AssetDaemonCursor.serialize serdes c) = .ok
      { latest_storage_id := c.latest_storage_id
        serialized_handled_root_asset_keys := c.handled_root_asset_keys
        serialized_handled_root_partitions_by_asset_key :=
          c.handled_root_partitions_by_asset_key.map
            (fun p => (p.1, PartitionsSubset.serialize p.2))
        evaluation_id := c.evaluation_id
        serialized_last_observe_request_timestamp_by_asset_key :=
          c.last_observe_request_timestamp_by_asset_key
        serialized_latest_evaluation_by_asset_key :=
          c.latest_evaluation_by_asset_key.map
            (fun p => (p.1, serdes.serialize_value p.2))
        latest_evaluation_timestamp := c.latest_evaluation_timestamp } := by
  unfold AssetDaemonCursor.serialize decodeCursorWire decodeObjWire
  simp [requireField, lookupField, List.find?, optionalIntMapField,
    optionalStrMapField, optionalTimestampField, decodeOptInt_jOptInt,
    decodeStringList, decodeStrMap, decodeIntMap, decodeInt,
    AssetKey.to_user_string, decodeStringItems_map,
    decodeStrMapItems_map PartitionsSubset.serialize
      c.handled_root_partitions_by_asset_key,
    decodeStrMapItems_map serdes.serialize_value
      c.latest_evaluation_by_asset_key,
    decodeIntMapItems_map]

theorem map_from_user_string (l : List AssetKey) :
    l.map AssetKey.from_user_string = l := by
  have : AssetKey.from_user_string = id := rfl
  rw [this, List.map_id]

theorem map_from_user_string_pairs {α : Type} (l : List (AssetKey × α)) :
    l.map (fun p => (AssetKey.from_user_string p.1, p.2)) = l := by
  have : (fun p : AssetKey × α => (AssetKey.from_user_string p.1, p.2)) = id := by
    funext p
    rfl
  rw [this, List.map_id]

/-- C2 (amended): for every cursor whose handled-partitions entries are
materializable assets whose current partitions definitions decode their own
serialized subsets without tripping the time-window special case, and whose
stored evaluations round-trip through the generic serdes layer,
`from_serialized` of `serialize` returns the cursor unchanged. -/
theorem serialize_roundtrip (serdes : Serdes) (asset_graph : AssetGraph)
    (c : AssetDaemonCursor)
    (hhandled : ∀ p ∈ c.handled_root_partitions_by_asset_key,
      p.1 ∈ asset_graph.materializable_asset_keys ∧
      ∃ pd, asset_graph.get_partitions_def p.1 = some pd ∧
        pd.deserialize_subset (PartitionsSubset.serialize p.2) = .ok p.2 ∧
        timeWindowSpecialCase pd p.2 = false)
    (hevals : ∀ p ∈ c.latest_evaluation_by_asset_key,
      serdes.deserialize_value (serdes.serialize_value p.2) = .ok p.2) :
    AssetDaemonCursor.from_serialized serdes (AssetDaemonCursor.serialize serdes c)
      asset_graph = .ok c := by
  unfold AssetDaemonCursor.from_serialized
  rw [decodeCursorWire_serialize]
  simp only []
  rw [handledEntries_roundtrip asset_graph c.handled_root_partitions_by_asset_key hhandled]
  rw [decodeEvaluationItems_roundtrip serdes c.latest_evaluation_by_asset_key hevals]
  simp [map_from_user_string, map_from_user_string_pairs]

theorem from_serialized_ok_inv {serdes : Serdes} {data : JVal} {g : AssetGraph}
    {c : AssetDaemonCursor}
    (h : AssetDaemonCursor.from_serialized serdes data g = .ok c) :
    ∃ raw, decodeCursorWire data = .ok raw ∧
      c.evaluation_id = raw.evaluation_id ∧
      c.last_observe_request_timestamp_by_asset_key =
        raw.serialized_last_observe_request_timestamp_by_asset_key.map
          (fun p => (AssetKey.from_user_string p.1, p.2)) ∧
      decodeEvaluationItems serdes raw.serialized_latest_evaluation_by_asset_key =
        .ok c.latest_evaluation_by_asset_key ∧
      c.handled_root_partitions_by_asset_key =
        raw.serialized_handled_root_partitions_by_asset_key.filterMap
          (handledEntryStep g) := by
  unfold AssetDaemonCursor.from_serialized at h
  split at h
  · simp at h
  · rename_i raw hraw
    split at h
    · simp at h
    · rename_i evals hevals
      rw [Except.ok.injEq] at h
      subst h
      exact ⟨raw, hraw, rfl, rfl, hevals, rfl⟩

theorem decodeCursorWire_legacy3_inv {a b cM : JVal} {raw : RawCursorData}
    (h : decodeCursorWire (.jlist [a, b, cM]) = .ok raw) :
    raw.evaluation_id = 0 ∧
    raw.serialized_last_observe_request_timestamp_by_asset_key = [] ∧
    raw.serialized_latest_evaluation_by_asset_key = [] ∧
    raw.latest_evaluation_timestamp = some 0 := by
  have h2 : decodeLegacyWire [a, b, cM] = .ok raw := h
  unfold decodeLegacyWire at h2
  simp only [checkInvariant, List.length_cons, List.length_nil] at h2
  split at h2
  · simp at h2
  · split at h2
    · simp at h2
    · split at h2
      · simp at h2
      · split at h2
        · simp at h2
        · rw [Except.ok.injEq] at h2
          subst h2
          exact ⟨rfl, rfl, rfl, rfl⟩

theorem decodeCursorWire_legacy4_inv {a b cM d : JVal} {raw : RawCursorData}
    (h : decodeCursorWire (.jlist [a, b, cM, d]) = .ok raw) :
    decodeInt d = .ok raw.evaluation_id ∧
    raw.serialized_last_observe_request_timestamp_by_asset_key = [] ∧
    raw.serialized_latest_evaluation_by_asset_key = [] := by
  have h2 : decodeLegacyWire [a, b, cM, d] = .ok raw := h
  unfold decodeLegacyWire at h2
  simp only [checkInvariant, List.length_cons, List.length_nil] at h2
  split at h2
  · simp at h2
  · split at h2
    · simp at h2
    · split at h2
      · simp at h2
      · split at h2
        · simp at h2
        · split at h2
          · simp at h2
          · rename_i eid heid
            rw [Except.ok.injEq] at h2
            subst h2
            exact ⟨heid, rfl, rfl⟩

theorem decodeCursorWire_obj_inv {fields : List (String × JVal)} {raw : RawCursorData}
    (h : decodeCursorWire (.jobj fields) = .ok raw) :
    ∃ v, requireField fields "evaluation_id" = .ok v ∧
      decodeInt v = .ok raw.evaluation_id := by
  have h2 : decodeObjWire fields = .ok raw := h
  unfold decodeObjWire at h2
  split at h2
  · simp at h2
  · split at h2
    · simp at h2
    · split at h2
      · simp at h2
      · split at h2
        · simp at h2
        · split at h2
          · simp at h2
          · split at h2
            · simp at h2
            · split at h2
              · simp at h2
              · rename_i vEid hvEid
                split at h2
                · simp at h2
                · rename_i eidInt heidInt
                  split at h2
                  · simp at h2
                  · split at h2
                    · simp at h2
                    · split at h2
                      · simp at h2
                      · rw [Except.ok.injEq] at h2
                        subst h2
                        exact ⟨vEid, hvEid, heidInt⟩

theorem storageIdCheck_ok_iff (newId priorId : Option Int) :
    storageIdCheck newId priorId = .ok () ↔
      (pyTruthy newId = false ∨ pyTruthy priorId = false ∨
        priorId.getD 0 ≤ newId.getD 0) := by
  unfold storageIdCheck checkInvariant
  by_cases hn : pyTruthy newId <;> by_cases hp : pyTruthy priorId <;>
    by_cases hle : priorId.getD 0 ≤ newId.getD 0 <;> simp [hn, hp, hle]

theorem with_updates_ok_iff (self : AssetDaemonCursor)
    (latest_storage_id : Option Int) (evaluation_id : Int)
    (newly_observe_requested_asset_keys : List AssetKey)
    (observe_request_timestamp : Int)
    (evaluations : List AutoMaterializeAssetEvaluation)
    (evaluation_time : Int)
    (asset_cursors : List AssetDaemonAssetCursor)
    (c2 : AssetDaemonCursor) :
    self.with_updates latest_storage_id evaluation_id
      newly_observe_requested_asset_keys observe_request_timestamp evaluations
      evaluation_time asset_cursors = .ok c2 ↔
      storageIdCheck latest_storage_id self.latest_storage_id = .ok () ∧
      c2 = {
        latest_storage_id := pyOr latest_storage_id self.latest_storage_id
        handled_root_asset_keys :=
          (asset_cursors.filter (fun c =>
            !c.materialized_requested_or_discarded_subset.is_partitioned &&
              c.materialized_requested_or_discarded_subset.bool_value)).map
            (fun c => c.asset_key)
        handled_root_partitions_by_asset_key :=
          dictComp (asset_cursors.filter (fun c =>
              c.materialized_requested_or_discarded_subset.is_partitioned))
            (fun c => c.asset_key)
            (fun c => c.materialized_requested_or_discarded_subset.subset_value)
        evaluation_id := evaluation_id
        last_observe_request_timestamp_by_asset_key :=
          newly_observe_requested_asset_keys.foldl
            (fun m k => setKey m k observe_request_timestamp)
            self.last_observe_request_timestamp_by_asset_key
        latest_evaluation_by_asset_key :=
          dictComp (evaluations.filter (fun e => !e.is_empty))
            (fun e => e.asset_key) (fun e => e)
        latest_evaluation_timestamp := some evaluation_time } := by
  constructor
  · intro hok
    unfold AssetDaemonCursor.with_updates at hok
    split at hok
    · simp at hok
    · rename_i u hu
      rw [Except.ok.injEq] at hok
      exact ⟨hu, hok.symm⟩
  · rintro ⟨hchk, rfl⟩
    simp only [AssetDaemonCursor.with_updates, hchk]

theorem storageIdCheck_error (newId priorId : Int) (hn : newId ≠ 0)
    (hp : priorId ≠ 0) (hlt : newId < priorId) :
    storageIdCheck (some newId) (some priorId) =
      .error "Latest storage ID should be >= previous latest storage ID" := by
  have hnle : ¬ (priorId ≤ newId) := by omega
  unfold storageIdCheck checkInvariant pyTruthy
  simp [hn, hp, hnle]

theorem with_updates_error_of_check (self : AssetDaemonCursor)
    (latest_storage_id : Option Int) (evaluation_id : Int)
    (newly_observe_requested_asset_keys : List AssetKey)
    (observe_request_timestamp : Int)
    (evaluations : List AutoMaterializeAssetEvaluation)
    (evaluation_time : Int)
    (asset_cursors : List AssetDaemonAssetCursor) (e : String)
    (hchk : storageIdCheck latest_storage_id self.latest_storage_id = .error e) :
    self.with_updates latest_storage_id evaluation_id
      newly_observe_requested_asset_keys observe_request_timestamp evaluations
      evaluation_time asset_cursors = .error e := by
  simp only [AssetDaemonCursor.with_updates, hchk]

/-- C1 (counterexample): with prior `latest_storage_id = 5`, a `with_updates`
call passing the non-null storage id 0 — strictly smaller than 5 — succeeds
instead of raising a precondition failure, because the Python truthiness
guard `if latest_storage_id and self.latest_storage_id` skips the
monotonicity check when the new id is 0. -/
theorem storage_id_monotonicity_counterexample :
    cursor5.latest_storage_id = some 5 ∧ (0 : Int) < 5 ∧
    cursor5.with_updates (some 0) 1 [] 0 [] 0 [] =
      .ok { latest_storage_id := some 5, handled_root_asset_keys := [],
            handled_root_partitions_by_asset_key := [], evaluation_id := 1,
            last_observe_request_timestamp_by_asset_key := [],
            latest_evaluation_by_asset_key := [],
            latest_evaluation_timestamp := some 0 } :=
  ⟨rfl, by decide, by decide⟩

/-- C1 (amended): when both the new and prior `latest_storage_id` are
non-null, nonzero and nonnegative, a `with_updates` call with a decreasing id
fails with the monotonicity precondition error; and every successful call
from a non-null nonnegative prior id with a nonnegative non-null argument
yields a `latest_storage_id` that is non-null, nonnegative and at least the
prior value, so the stored id is non-decreasing across successful updates. -/
theorem storage_id_monotonicity (self : AssetDaemonCursor) (evaluation_id : Int)
    (newly_observe_requested_asset_keys : List AssetKey)
    (observe_request_timestamp : Int)
    (evaluations : List AutoMaterializeAssetEvaluation) (evaluation_time : Int)
    (asset_cursors : List AssetDaemonAssetCursor) (newId priorId : Int)
    (hprior : self.latest_storage_id = some priorId)
    (hnewNonneg : 0 ≤ newId) (hpriorNonneg : 0 ≤ priorId) :
    (newId ≠ 0 → priorId ≠ 0 → newId < priorId →
      self.with_updates (some newId) evaluation_id
        newly_observe_requested_asset_keys observe_request_timestamp evaluations
        evaluation_time asset_cursors =
        .error "Latest storage ID should be >= previous latest storage ID") ∧
    (∀ c2, self.with_updates (some newId) evaluation_id
        newly_observe_requested_asset_keys observe_request_timestamp evaluations
        evaluation_time asset_cursors = .ok c2 →
      ∃ q, c2.latest_storage_id = some q ∧ priorId ≤ q ∧ 0 ≤ q) := by
  constructor
  · intro hn hp hlt
    exact with_updates_error_of_check self (some newId) evaluation_id
      newly_observe_requested_asset_keys observe_request_timestamp evaluations
      evaluation_time asset_cursors _
      (by rw [hprior]; exact storageIdCheck_error newId priorId hn hp hlt)
  · intro c2 hok
    rcases (with_updates_ok_iff self (some newId) evaluation_id
      newly_observe_requested_asset_keys observe_request_timestamp evaluations
      evaluation_time asset_cursors c2).mp hok with ⟨hchk, rfl⟩
    rw [hprior] at hchk
    rw [storageIdCheck_ok_iff] at hchk
    by_cases hn : newId = 0
    · refine ⟨priorId, ?_, le_refl priorId, hpriorNonneg⟩
      simp [pyOr, pyTruthy, hn, hprior]
    · refine ⟨newId, ?_, ?_, hnewNonneg⟩
      · simp [pyOr, pyTruthy, hn]
      · rcases hchk with h1 | h2 | h3
        · simp [pyTruthy, hn] at h1
        · simp [pyTruthy] at h2
          omega
        · simpa using h3

/-- C1 (witness): with prior id 5, an update passing the smaller nonzero id 3
fails with the monotonicity error. -/
theorem storage_id_monotonicity_witness :
    cursor5.with_updates (some 3) 1 [] 0 [] 0 [] =
      .error "Latest storage ID should be >= previous latest storage ID" :=
  (storage_id_monotonicity cursor5 1 [] 0 [] 0 [] 3 5 rfl (by decide)
    (by decide)).1 (by decide) (by decide) (by decide)

/-- C5 (counterexample): with prior `latest_storage_id = 9`, a successful
`with_updates` call passing the non-null storage id 0 yields a cursor whose
`latest_storage_id` is the prior 9, not the provided 0: Python
`latest_storage_id or self.latest_storage_id` treats 0 as absent. -/
theorem latest_storage_id_update_counterexample :
    cursor9.with_updates (some 0) 1 [] 0 [] 0 [] =
      .ok { latest_storage_id := some 9, handled_root_asset_keys := [],
            handled_root_partitions_by_asset_key := [], evaluation_id := 1,
            last_observe_request_timestamp_by_asset_key := [],
            latest_evaluation_by_asset_key := [],
            latest_evaluation_timestamp := some 0 } ∧
    some (9 : Int) ≠ some (0 : Int) :=
  ⟨by decide, by decide⟩

/-- C5 (amended): for every successful `with_updates` call, the resulting
`latest_storage_id` equals the argument when the argument is non-null and
nonzero, and equals the prior cursor's value when the argument is null or
zero (Python `or` semantics). -/
theorem latest_storage_id_update (self : AssetDaemonCursor)
    (latest_storage_id : Option Int) (evaluation_id : Int)
    (newly_observe_requested_asset_keys : List AssetKey)
    (observe_request_timestamp : Int)
    (evaluations : List AutoMaterializeAssetEvaluation) (evaluation_time : Int)
    (asset_cursors : List AssetDaemonAssetCursor) (c2 : AssetDaemonCursor)
    (hok : self.with_updates latest_storage_id evaluation_id
      newly_observe_requested_asset_keys observe_request_timestamp evaluations
      evaluation_time asset_cursors = .ok c2) :
    (pyTruthy latest_storage_id = true → c2.latest_storage_id = latest_storage_id) ∧
    (pyTruthy latest_storage_id = false →
      c2.latest_storage_id = self.latest_storage_id) := by
  rcases (with_updates_ok_iff self latest_storage_id evaluation_id
    newly_observe_requested_asset_keys observe_request_timestamp evaluations
    evaluation_time asset_cursors c2).mp hok with ⟨_, rfl⟩
  constructor
  · intro ht
    simp [pyOr, ht]
  · intro hf
    simp [pyOr, hf]

/-- C5 (witness): with prior id 9, an update passing the nonzero id 12
stores 12. -/
theorem latest_storage_id_update_witness :
    ({ latest_storage_id := some 12, handled_root_asset_keys := [],
       handled_root_partitions_by_asset_key := [], evaluation_id := 1,
       last_observe_request_timestamp_by_asset_key := [],
       latest_evaluation_by_asset_key := [],
       latest_evaluation_timestamp := some 0 } :
        AssetDaemonCursor).latest_storage_id = some 12 :=
  (latest_storage_id_update cursor9 (some 12) 1 [] 0 [] 0 []
    { latest_storage_id := some 12, handled_root_asset_keys := [],
      handled_root_partitions_by_asset_key := [], evaluation_id := 1,
      last_observe_request_timestamp_by_asset_key := [],
      latest_evaluation_by_asset_key := [],
      latest_evaluation_timestamp := some 0 } (by decide)).1 rfl

/-- C10: `AssetDaemonAssetCursor.with_updates` on an asset that is not a root
of the asset graph returns the input cursor unchanged, for all values of the
newly-materialized, requested and discarded arguments. -/
theorem asset_cursor_non_root_noop (self : AssetDaemonAssetCursor)
    (asset_graph : AssetGraph) (newly_materialized_subset : AssetSubset)
    (requested_asset_partitions : List AssetKeyPartitionKey)
    (discarded_asset_partitions : List AssetKeyPartitionKey)
    (h : self.asset_key ∉ asset_graph.root_asset_keys) :
    self.with_updates asset_graph newly_materialized_subset
      requested_asset_partitions discarded_asset_partitions = self := by
  unfold AssetDaemonAssetCursor.with_updates
  rw [if_pos h]

/-- C10 (witness): the non-root no-op instantiated at asset `x` under a graph
whose only root is `r`, with non-trivial update arguments. -/
theorem asset_cursor_non_root_noop_witness :
    acX.with_updates rootedGraph
      { asset_key := "x", value := .boolVal true } [("x", none)] [("x", some "p")] =
      acX :=
  asset_cursor_non_root_noop acX rootedGraph
    { asset_key := "x", value := .boolVal true } [("x", none)] [("x", some "p")]
    (by decide)

/-- C9: after any successful `with_updates` call, the resulting
`latest_evaluation_by_asset_key` is built solely from the evaluations
argument with the `is_empty` ones excluded: every stored entry is a non-empty
evaluation from the argument keyed by its own asset key (so the map never
contains an evaluation with `is_empty` true), and every non-empty evaluation
of the argument has an entry under its asset key. -/
theorem evaluation_pruning (self : AssetDaemonCursor)
    (latest_storage_id : Option Int) (evaluation_id : Int)
    (newly_observe_requested_asset_keys : List AssetKey)
    (observe_request_timestamp : Int)
    (evaluations : List AutoMaterializeAssetEvaluation) (evaluation_time : Int)
    (asset_cursors : List AssetDaemonAssetCursor) (c2 : AssetDaemonCursor)
    (hok : self.with_updates latest_storage_id evaluation_id
      newly_observe_requested_asset_keys observe_request_timestamp evaluations
      evaluation_time asset_cursors = .ok c2) :
    (∀ k e, (k, e) ∈ c2.latest_evaluation_by_asset_key →
      e.is_empty = false ∧ k = e.asset_key ∧ e ∈ evaluations) ∧
    (∀ e ∈ evaluations, e.is_empty = false →
      ∃ e2, (e.asset_key, e2) ∈ c2.latest_evaluation_by_asset_key) := by
  rcases (with_updates_ok_iff self latest_storage_id evaluation_id
    newly_observe_requested_asset_keys observe_request_timestamp evaluations
    evaluation_time asset_cursors c2).mp hok with ⟨_, rfl⟩
  constructor
  · intro k e hmem
    rcases dictComp_val hmem with ⟨x, hx, hkey, hval⟩
    rcases List.mem_filter.mp hx with ⟨hxl, hxf⟩
    subst hval
    refine ⟨?_, hkey.symm, hxl⟩
    simpa using hxf
  · intro e he hne
    rw [dictComp_key]
    exact ⟨e, List.mem_filter.mpr ⟨he, by simp [hne]⟩, rfl⟩

/-- C9 (witness): among evaluations `[evalA, evalB]` with `evalB` empty, the
stored entry for key `a` is the non-empty `evalA` drawn from the argument. -/
theorem evaluation_pruning_witness :
    evalA.is_empty = false ∧ ("a" : AssetKey) = evalA.asset_key ∧
      evalA ∈ [evalA, evalB] :=
  (evaluation_pruning AssetDaemonCursor.empty none 1 [] 0 [evalA, evalB] 0 []
    c9res (by decide)).1 "a" evalA (by decide)

/-- C8 (counterexample): when `asset_cursors` carries the same asset key once
as an unpartitioned true subset and once as a partitioned subset, the key
lands in both `handled_root_asset_keys` and
`handled_root_partitions_by_asset_key` of the result. -/
theorem handled_mutual_exclusivity_counterexample :
    AssetDaemonCursor.empty.with_updates none 0 [] 0 [] 0 dupCursors = .ok c8res ∧
    ("k" : AssetKey) ∈ c8res.handled_root_asset_keys ∧
    ("k" : AssetKey) ∈ c8res.handled_root_partitions_by_asset_key.map Prod.fst :=
  ⟨by decide, by decide, by decide⟩

/-- C8 (amended): after any successful `with_updates` call whose
`asset_cursors` carry pairwise distinct asset keys, no asset key appears in
both `handled_root_asset_keys` and `handled_root_partitions_by_asset_key` of
the result. -/
theorem handled_mutual_exclusivity (self : AssetDaemonCursor)
    (latest_storage_id : Option Int) (evaluation_id : Int)
    (newly_observe_requested_asset_keys : List AssetKey)
    (observe_request_timestamp : Int)
    (evaluations : List AutoMaterializeAssetEvaluation) (evaluation_time : Int)
    (asset_cursors : List AssetDaemonAssetCursor) (c2 : AssetDaemonCursor)
    (hok : self.with_updates latest_storage_id evaluation_id
      newly_observe_requested_asset_keys observe_request_timestamp evaluations
      evaluation_time asset_cursors = .ok c2)
    (hnodup : (asset_cursors.map (fun c => c.asset_key)).Nodup) :
    ∀ k, k ∈ c2.handled_root_asset_keys →
      ¬ ∃ s, (k, s) ∈ c2.handled_root_partitions_by_asset_key := by
  rcases (with_updates_ok_iff self latest_storage_id evaluation_id
    newly_observe_requested_asset_keys observe_request_timestamp evaluations
    evaluation_time asset_cursors c2).mp hok with ⟨_, rfl⟩
  rintro k hk ⟨s, hs⟩
  rcases List.mem_map.mp hk with ⟨cu, hcu, hcuk⟩
  rcases List.mem_filter.mp hcu with ⟨hcul, hcup⟩
  rcases dictComp_val hs with ⟨cv, hcv, hcvk, _⟩
  rcases List.mem_filter.mp hcv with ⟨hcvl, hcvp⟩
  have hequ : cu = cv :=
    List.inj_on_of_nodup_map hnodup hcul hcvl (by rw [hcuk, hcvk])
  rw [hequ] at hcup
  rw [hcvp] at hcup
  simp at hcup

/-- C8 (witness): with distinct-keyed asset cursors `[acA, acB]`, the
unpartitioned key `a` has no entry in the resulting handled-partitions map. -/
theorem handled_mutual_exclusivity_witness :
    ¬ ∃ s, (("a" : AssetKey), s) ∈ c38res.handled_root_partitions_by_asset_key :=
  handled_mutual_exclusivity AssetDaemonCursor.empty none 1 [] 0 [] 0 [acA, acB]
    c38res (by decide) (by decide) "a" (by decide)

/-- C3: after a successful `with_updates` call, the two handled-state fields
are rebuilt from the `asset_cursors` argument alone: a key is stored in
`handled_root_asset_keys` exactly when some cursor with that key has an
unpartitioned subset with boolean value true; a key has an entry in
`handled_root_partitions_by_asset_key` exactly when some cursor with that key
is partitioned, and every stored value is such a cursor's subset value; and a
key carried by no cursor — in particular any root asset handled in the prior
cursor but omitted from `asset_cursors` — is absent from both. -/
theorem handled_state_rebuild (self : AssetDaemonCursor)
    (latest_storage_id : Option Int) (evaluation_id : Int)
    (newly_observe_requested_asset_keys : List AssetKey)
    (observe_request_timestamp : Int)
    (evaluations : List AutoMaterializeAssetEvaluation) (evaluation_time : Int)
    (asset_cursors : List AssetDaemonAssetCursor) (c2 : AssetDaemonCursor)
    (hok : self.with_updates latest_storage_id evaluation_id
      newly_observe_requested_asset_keys observe_request_timestamp evaluations
      evaluation_time asset_cursors = .ok c2) :
    (∀ k, k ∈ c2.handled_root_asset_keys ↔
      ∃ cu ∈ asset_cursors, cu.asset_key = k ∧
        cu.materialized_requested_or_discarded_subset.is_partitioned = false ∧
        cu.materialized_requested_or_discarded_subset.bool_value = true) ∧
    (∀ k, (∃ s, (k, s) ∈ c2.handled_root_partitions_by_asset_key) ↔
      ∃ cu ∈ asset_cursors, cu.asset_key = k ∧
        cu.materialized_requested_or_discarded_subset.is_partitioned = true) ∧
    (∀ k s, (k, s) ∈ c2.handled_root_partitions_by_asset_key →
      ∃ cu ∈ asset_cursors, cu.asset_key = k ∧
        cu.materialized_requested_or_discarded_subset.subset_value = s) ∧
    (∀ k, (∀ cu ∈ asset_cursors, cu.asset_key ≠ k) →
      k ∉ c2.handled_root_asset_keys ∧
        ¬ ∃ s, (k, s) ∈ c2.handled_root_partitions_by_asset_key) := by
  rcases (with_updates_ok_iff self latest_storage_id evaluation_id
    newly_observe_requested_asset_keys observe_request_timestamp evaluations
    evaluation_time asset_cursors c2).mp hok with ⟨_, rfl⟩
  refine ⟨?_, ?_, ?_, ?_⟩
  · intro k
    constructor
    · intro hk
      rcases List.mem_map.mp hk with ⟨cu, hcu, rfl⟩
      rcases List.mem_filter.mp hcu with ⟨hl, hp⟩
      simp only [Bool.and_eq_true, Bool.not_eq_true'] at hp
      exact ⟨cu, hl, rfl, hp.1, hp.2⟩
    · rintro ⟨cu, hl, rfl, hnp, hb⟩
      exact List.mem_map.mpr
        ⟨cu, List.mem_filter.mpr ⟨hl, by simp [hnp, hb]⟩, rfl⟩
  · intro k
    rw [dictComp_key]
    constructor
    · rintro ⟨cu, hcu, hk⟩
      rcases List.mem_filter.mp hcu with ⟨hl, hp⟩
      exact ⟨cu, hl, hk, hp⟩
    · rintro ⟨cu, hl, hk, hp⟩
      exact ⟨cu, List.mem_filter.mpr ⟨hl, hp⟩, hk⟩
  · intro k s hs
    rcases dictComp_val hs with ⟨cu, hcu, hk, hv⟩
    rcases List.mem_filter.mp hcu with ⟨hl, _⟩
    exact ⟨cu, hl, hk, hv⟩
  · intro k hnone
    constructor
    · intro hk
      rcases List.mem_map.mp hk with ⟨cu, hcu, hck⟩
      rcases List.mem_filter.mp hcu with ⟨hl, _⟩
      exact hnone cu hl hck
    · rintro ⟨s, hs⟩
      rcases dictComp_val hs with ⟨cu, hcul, hk, _⟩
      rcases List.mem_filter.mp hcul with ⟨hl, _⟩
      exact hnone cu hl hk

/-- C3 (witness): with asset cursors `[acA, acB]`, a key carried by neither
cursor is absent from both handled-state fields of the result. -/
theorem handled_state_rebuild_witness :
    ("z" : AssetKey) ∉ c38res.handled_root_asset_keys ∧
      ¬ ∃ s, (("z" : AssetKey), s) ∈ c38res.handled_root_partitions_by_asset_key :=
  (handled_state_rebuild AssetDaemonCursor.empty none 1 [] 0 [] 0 [acA, acB]
    c38res (by decide)).2.2.2 "z" (by decide)

theorem list_length_eq_four {α : Type} {l : List α} :
    l.length = 4 ↔ ∃ a b c d, l = [a, b, c, d] := by
  constructor
  · intro h
    rcases l with _ | ⟨a, l⟩
    · simp at h
    · rcases l with _ | ⟨b, l⟩
      · simp at h
      · rcases l with _ | ⟨c, l⟩
        · simp at h
        · rcases l with _ | ⟨d, l⟩
          · simp at h
          · rcases l with _ | ⟨e, l⟩
            · exact ⟨a, b, c, d, rfl⟩
            · simp at h
  · rintro ⟨a, b, c, d, rfl⟩
    rfl

/-- C2 (counterexample): `twCursor` satisfies the claim's validity conditions
— its only handled key `a` is a materializable asset whose current partitions
definition decodes the subset's own serialization back to the subset — yet
deserializing its serialization does not return it: the time-window special
case replaces the decodable subset by the empty subset because an included
window starts before the definition's start boundary. -/
theorem serialize_roundtrip_counterexample :
    ("a" : AssetKey) ∈ twGraph.materializable_asset_keys ∧
    twGraph.get_partitions_def "a" = some twPd ∧
    twPd.deserialize_subset (PartitionsSubset.serialize twSubset) = .ok twSubset ∧
    AssetDaemonCursor.from_serialized trivialSerdes
      (AssetDaemonCursor.serialize trivialSerdes twCursor) twGraph ≠
      .ok twCursor :=
  ⟨by decide, rfl, by decide, by decide⟩

/-- C2 (witness): `goodCursor`, whose handled subset for asset `a` decodes
back to itself under `goodGraph` without tripping the time-window special
case, round-trips exactly. -/
theorem serialize_roundtrip_witness :
    AssetDaemonCursor.from_serialized trivialSerdes
      (AssetDaemonCursor.serialize trivialSerdes goodCursor) goodGraph =
      .ok goodCursor :=
  serialize_roundtrip trivialSerdes goodGraph goodCursor
    (by
      intro p hp
      have hl : goodCursor.handled_root_partitions_by_asset_key =
          [(("a" : AssetKey), psEx)] := rfl
      rw [hl] at hp
      rcases List.mem_singleton.mp hp with rfl
      exact ⟨by decide, pdGood, rfl, by decide, by decide⟩)
    (by
      intro p hp
      have hl : goodCursor.latest_evaluation_by_asset_key =
          ([] : List (AssetKey × AutoMaterializeAssetEvaluation)) := rfl
      rw [hl] at hp
      exact absurd hp (List.not_mem_nil p))

/-- C7: deserializing a legacy JSON list fails with the invariant error for
every length other than 3 and 4; every successful 3-element deserialization
yields evaluation id 0 with empty observe timestamps and evaluations — in
particular the spec's example `[100, ["a"], \x7b\x7d]` — and every successful
4-element deserialization takes its evaluation id from the fourth element, as
in the spec's example `[100, ["a"], \x7b\x7d, 7]` which yields 7. -/
theorem legacy_list_format (serdes : Serdes) (asset_graph : AssetGraph) :
    (∀ xs : List JVal, xs.length ≠ 3 → xs.length ≠ 4 →
      AssetDaemonCursor.from_serialized serdes (.jlist xs) asset_graph =
        .error "Invalid serialized cursor") ∧
    (∀ (a b cM : JVal) (c : AssetDaemonCursor),
      AssetDaemonCursor.from_serialized serdes (.jlist [a, b, cM]) asset_graph =
        .ok c →
      c.evaluation_id = 0 ∧
      c.last_observe_request_timestamp_by_asset_key = [] ∧
      c.latest_evaluation_by_asset_key = []) ∧
    AssetDaemonCursor.from_serialized serdes legacy3Example asset_graph =
      .ok { latest_storage_id := some 100, handled_root_asset_keys := ["a"],
            handled_root_partitions_by_asset_key := [], evaluation_id := 0,
            last_observe_request_timestamp_by_asset_key := [],
            latest_evaluation_by_asset_key := [],
            latest_evaluation_timestamp := some 0 } ∧
    (∀ (a b cM d : JVal) (c : AssetDaemonCursor),
      AssetDaemonCursor.from_serialized serdes (.jlist [a, b, cM, d])
        asset_graph = .ok c →
      decodeInt d = .ok c.evaluation_id) ∧
    (AssetDaemonCursor.from_serialized serdes legacy4Example asset_graph).map
      (fun c => c.evaluation_id) = .ok 7 := by
  refine ⟨?_, ?_, ?_, ?_, ?_⟩
  · intro xs h3 h4
    have hc : decodeLegacyWire xs = .error "Invalid serialized cursor" := by
      unfold decodeLegacyWire checkInvariant
      have hlen : (xs.length == 3 || xs.length == 4) = false := by
        simp [h3, h4]
      rw [hlen]
      rfl
    unfold AssetDaemonCursor.from_serialized
    rw [show decodeCursorWire (JVal.jlist xs) =
        .error "Invalid serialized cursor" from hc]
  · intro a b cM c hok
    rcases from_serialized_ok_inv hok with ⟨raw, hraw, heid, hobs, hevals, _⟩
    rcases decodeCursorWire_legacy3_inv hraw with ⟨h0, hso, hse, _⟩
    refine ⟨by rw [heid, h0], ?_, ?_⟩
    · rw [hobs, hso]
      rfl
    · rw [hse] at hevals
      rw [show decodeEvaluationItems serdes [] = .ok [] from rfl] at hevals
      rw [Except.ok.injEq] at hevals
      exact hevals.symm
  · rfl
  · intro a b cM d c hok
    rcases from_serialized_ok_inv hok with ⟨raw, hraw, heid, _, _, _⟩
    rcases decodeCursorWire_legacy4_inv hraw with ⟨hd, _, _⟩
    rw [heid]
    exact hd
  · rfl

/-- C7 (witness): the empty list, of length neither 3 nor 4, is rejected. -/
theorem legacy_list_format_witness :
    AssetDaemonCursor.from_serialized trivialSerdes (.jlist []) trivialGraph =
      .error "Invalid serialized cursor" :=
  (legacy_list_format trivialSerdes trivialGraph).1 [] (by decide) (by decide)

/-- C4 (counterexample): for the legacy 3-element example, the evaluation-id
peek returns `none` while full deserialization yields a cursor whose
`evaluation_id` is 0 — the peek does not return that tick counter. -/
theorem evaluation_id_peek_counterexample :
    AssetDaemonCursor.get_evaluation_id_from_serialized legacy3Example =
      .ok none ∧
    AssetDaemonCursor.from_serialized trivialSerdes legacy3Example
      trivialGraph =
      .ok { latest_storage_id := some 100, handled_root_asset_keys := ["a"],
            handled_root_partitions_by_asset_key := [], evaluation_id := 0,
            last_observe_request_timestamp_by_asset_key := [],
            latest_evaluation_by_asset_key := [],
            latest_evaluation_timestamp := some 0 } ∧
    (none : Option Int) ≠ some 0 :=
  ⟨by decide, by decide, by decide⟩

/-- C4 (amended): whenever full deserialization succeeds, the evaluation-id
peek agrees with the cursor's `evaluation_id` for the current map format and
the legacy 4-element format; for a legacy 3-element list the peek returns
`None` while the deserialized cursor's `evaluation_id` is 0. -/
theorem evaluation_id_peek (serdes : Serdes) (data : JVal)
    (asset_graph : AssetGraph) (c : AssetDaemonCursor)
    (hok : AssetDaemonCursor.from_serialized serdes data asset_graph = .ok c) :
    AssetDaemonCursor.get_evaluation_id_from_serialized data =
      .ok (if isLegacy3 data then none else some c.evaluation_id) ∧
    (isLegacy3 data = true → c.evaluation_id = 0) := by
  rcases from_serialized_ok_inv hok with ⟨raw, hraw, heid, _, _, _⟩
  match data with
  | .jnull => exact absurd hraw (by simp [decodeCursorWire])
  | .jint n => exact absurd hraw (by simp [decodeCursorWire])
  | .jstr s => exact absurd hraw (by simp [decodeCursorWire])
  | .jlist xs =>
    have hlen : (xs.length == 3 || xs.length == 4) = true := by
      by_contra hcon
      have hfalse : (xs.length == 3 || xs.length == 4) = false := by
        simpa using hcon
      have herr : decodeLegacyWire xs = .error "Invalid serialized cursor" := by
        unfold decodeLegacyWire checkInvariant
        rw [hfalse]
        rfl
      rw [show decodeCursorWire (JVal.jlist xs) = decodeLegacyWire xs from rfl,
        herr] at hraw
      exact Except.noConfusion hraw
    rw [Bool.or_eq_true, beq_iff_eq, beq_iff_eq] at hlen
    rcases hlen with h3 | h4
    · rcases List.length_eq_three.mp h3 with ⟨a, b, cM, rfl⟩
      rcases decodeCursorWire_legacy3_inv hraw with ⟨h0, _, _, _⟩
      exact ⟨rfl, fun _ => by rw [heid, h0]⟩
    · rcases list_length_eq_four.mp h4 with ⟨a, b, cM, d, rfl⟩
      rcases decodeCursorWire_legacy4_inv hraw with ⟨hd, _, _⟩
      constructor
      · show (match decodeInt d with
          | .error e => (Except.error e : Except String (Option Int))
          | .ok n => .ok (some n)) =
          .ok (some c.evaluation_id)
        rw [heid, hd]
      · intro hcontra
        simp [isLegacy3] at hcontra
  | .jobj fields =>
    rcases decodeCursorWire_obj_inv hraw with ⟨v, hv, hd⟩
    constructor
    · show (match requireField fields "evaluation_id" with
        | .error e => (Except.error e : Except String (Option Int))
        | .ok v2 =>
          match decodeInt v2 with
          | .error e => .error e
          | .ok n => .ok (some n)) =
        .ok (some c.evaluation_id)
      simp [hv, hd, heid]
    · intro hcontra
      simp [isLegacy3] at hcontra

/-- C4 (witness): the peek on the serialized `goodCursor` (map format) yields
its evaluation id. -/
theorem evaluation_id_peek_witness :
    AssetDaemonCursor.get_evaluation_id_from_serialized
      (AssetDaemonCursor.serialize trivialSerdes goodCursor) =
      .ok (if isLegacy3 (AssetDaemonCursor.serialize trivialSerdes goodCursor)
        then none else some goodCursor.evaluation_id) :=
  (evaluation_id_peek trivialSerdes
    (AssetDaemonCursor.serialize trivialSerdes goodCursor) goodGraph goodCursor
    (by decide)).1

theorem decodeCursorWire_mkMapWire (sid : Option Int) (keyStrs : List String)
    (handled : List (String × String)) (eid : Int) :
    decodeCursorWire (mkMapWire sid keyStrs handled eid) = .ok
      { latest_storage_id := sid
        serialized_handled_root_asset_keys := keyStrs
        serialized_handled_root_partitions_by_asset_key := handled
        evaluation_id := eid
        serialized_last_observe_request_timestamp_by_asset_key := []
        serialized_latest_evaluation_by_asset_key := []
        latest_evaluation_timestamp := some 0 } := by
  unfold mkMapWire decodeCursorWire decodeObjWire
  simp [requireField, lookupField, List.find?, optionalIntMapField,
    optionalStrMapField, optionalTimestampField, decodeOptInt_jOptInt,
    decodeStringList, decodeStrMap, decodeInt, decodeStringItems_map,
    decodeStrMapItems_map (fun s => s) handled]

theorem decodeHandledSubset_empty {pd : PartitionsDefinition} {ss : String}
    (hfail : (∃ e, pd.deserialize_subset ss = .error e) ∨
      (∃ sub, pd.deserialize_subset ss = .ok sub ∧
        timeWindowSpecialCase pd sub = true)) :
    decodeHandledSubset pd ss = pd.empty_subset := by
  unfold decodeHandledSubset
  rcases hfail with ⟨e, he⟩ | ⟨sub, hsub, hsp⟩
  · simp [he]
  · simp [hsub, hsp]

/-- C6: deserializing a map-format wire value never fails because of a
handled-partitions entry: for any entry whose key is a materializable asset
with a partitions definition, when the serialized subset fails to decode, or
decodes to a time-windowed subset with a window starting before the
time-windowed definition's start boundary, deserialization still succeeds and
the resulting cursor maps that key to the definition's empty subset. -/
theorem decode_failure_substitutes_empty (serdes : Serdes)
    (asset_graph : AssetGraph) (sid : Option Int) (keyStrs : List String)
    (handled : List (String × String)) (eid : Int)
    (ks ss : String) (pd : PartitionsDefinition)
    (hmem : (ks, ss) ∈ handled)
    (hmat : AssetKey.from_user_string ks ∈ asset_graph.materializable_asset_keys)
    (hpd : asset_graph.get_partitions_def (AssetKey.from_user_string ks) =
      some pd)
    (hfail : (∃ e, pd.deserialize_subset ss = .error e) ∨
      (∃ sub, pd.deserialize_subset ss = .ok sub ∧
        timeWindowSpecialCase pd sub = true)) :
    (∃ c, AssetDaemonCursor.from_serialized serdes
      (mkMapWire sid keyStrs handled eid) asset_graph = .ok c) ∧
    (∀ c, AssetDaemonCursor.from_serialized serdes
        (mkMapWire sid keyStrs handled eid) asset_graph = .ok c →
      (AssetKey.from_user_string ks, pd.empty_subset) ∈
        c.handled_root_partitions_by_asset_key) := by
  have hwire := decodeCursorWire_mkMapWire sid keyStrs handled eid
  have hstep : handledEntryStep asset_graph (ks, ss) =
      some (AssetKey.from_user_string ks, pd.empty_subset) := by
    unfold handledEntryStep
    simp only []
    rw [if_pos hmat, hpd]
    simp [decodeHandledSubset_empty hfail]
  constructor
  · refine ⟨?_, ?_⟩
    · exact {
        latest_storage_id := sid
        handled_root_asset_keys := keyStrs.map AssetKey.from_user_string
        handled_root_partitions_by_asset_key :=
          handled.filterMap (handledEntryStep asset_graph)
        evaluation_id := eid
        last_observe_request_timestamp_by_asset_key := []
        latest_evaluation_by_asset_key := []
        latest_evaluation_timestamp := some 0 }
    · unfold AssetDaemonCursor.from_serialized
      rw [hwire]
      rfl
  · intro c hok
    rcases from_serialized_ok_inv hok with ⟨raw, hraw, _, _, _, hhandled⟩
    rw [hwire, Except.ok.injEq] at hraw
    subst hraw
    rw [hhandled]
    exact List.mem_filterMap.mpr ⟨(ks, ss), hmem, hstep⟩

/-- C6 (witness): with the undecodable subset string `BAD` for the
materializable asset `a` of `goodGraph`, deserialization succeeds and maps
`a` to the empty subset. -/
theorem decode_failure_substitutes_empty_witness :
    ((("a" : AssetKey), pdGood.empty_subset) ∈
      cW.handled_root_partitions_by_asset_key) :=
  (decode_failure_substitutes_empty trivialSerdes goodGraph (some 1) []
    [("a", "BAD")] 0 "a" "BAD" pdGood (by decide) (by decide) rfl
    (Or.inl ⟨"bad subset", rfl⟩)).2 cW (by decide)
